import Mathlib

/-!
Verification of the time-series aggregation and growth-ranking pipeline of
`crawler.py` (keyword popularity crawler).

The embedding is shallow and executable:

* A CSV cell is modelled by `Cell`: a blank field (pandas `NA`/`NaN` after
  parsing), a text field, an integer field, or a rational field.  Calendar
  dates are modelled as integer day indices, so `date - 1 day` is integer
  subtraction; real numbers are modelled as rationals.
* A stored CSV file is modelled by `DF` (header plus rows of cells); the
  store on disk is `PStore`: absent file, zero-byte file, or a table.
  A zero-byte file is distinguished because `pd.read_csv` raises
  `EmptyDataError` on it (with both the C and the python engines), while a
  header-only file parses to an empty frame.
* `safe_read_csv`, `upgrade_daily_schema_if_needed`, `compute_growth`
  (as `enrichRow`/`compute_growth`), `append_csv` (as `appendStore`),
  `write_top_risers` and `read_keywords` are translated line by line from
  the source.  Python's `round(x, 2)` (round-half-to-even) is modelled
  exactly on rationals by `round2`.
* The `csv.DictWriter` used for output stringifies non-`None` cells with
  `str`; in particular `str(float("nan")) = "nan"`, which is what
  `write_top_risers` produces for an absent growth value after its
  `pd.to_numeric(..., errors="coerce")` coercion.
-/

namespace Crawler

/-- One CSV cell after tolerant parsing. -/
inductive Cell where
  | blank : Cell
  | s (v : String) : Cell
  | i (v : Int) : Cell
  | q (v : ℚ) : Cell
deriving DecidableEq

/-- A parsed tabular file: a header and the data rows. -/
structure DF where
  cols : List String
  rows : List (List Cell)
deriving DecidableEq

/-- The on-disk state of a CSV store. -/
inductive PStore where
  | absent : PStore
  | emptyFile : PStore
  | table (df : DF) : PStore
deriving DecidableEq

/-- The old 4-column layout of `daily.csv` (`SCHEMA_V1` in the source). -/
def SCHEMA_V1 : List String := ["date", "keyword", "count", "status"]

/-- The current 6-column layout of `daily.csv` (`SCHEMA_V2` in the source). -/
def SCHEMA_V2 : List String :=
  ["date", "keyword", "count", "status", "day_growth_pct", "week_growth_pct"]

/-- The two growth columns added by the v1 → v2 upgrade. -/
def GROWTH_COLS : List String := ["day_growth_pct", "week_growth_pct"]

/-- The built-in default keyword list (`DEFAULT_KEYWORDS` in the source). -/
def DEFAULT_KEYWORDS : List String :=
  ["洋裝", "連身裙", "牛仔褲", "短裙", "雪紡", "針織衫", "襯衫", "西裝外套", "風衣", "高腰褲"]

/-- A run of `n` blank cells. -/
def blanks (n : Nat) : List Cell := List.replicate n Cell.blank

/-- Value of a row under a column name: the cell at the position the name
has in the header, a blank cell if the name is absent or the row is short. -/
def getCellRow : List String → List Cell → String → Cell
  | [], _, _ => Cell.blank
  | _ :: _, [], _ => Cell.blank
  | c0 :: cs, v :: vs, c => if c0 = c then v else getCellRow cs vs c

/-- Pad a short row with blank cells up to the header width (what
`pd.read_csv` does for rows with fewer fields than the header). -/
def padRow (n : Nat) (r : List Cell) : List Cell := r ++ blanks (n - r.length)

/-- Tolerant row intake of `pd.read_csv(..., on_bad_lines="skip")`: rows
with more fields than the header are skipped, short rows are padded. -/
def readRows (cols : List String) (rows : List (List Cell)) : List (List Cell) :=
  (rows.filter (fun r => decide (r.length ≤ cols.length))).map (padRow cols.length)

/-- Model of `df[c] = pd.NA`: a new all-blank column appended at the end. -/
def addNACol (df : DF) (c : String) : DF :=
  ⟨df.cols ++ [c], df.rows.map (fun r => r ++ [Cell.blank])⟩

/-- Model of `df[order]`: reindex every row by the given column names. -/
def selectCols (df : DF) (order : List String) : DF :=
  ⟨order, df.rows.map (fun r => order.map (getCellRow df.cols r))⟩

/-- Model of `safe_read_csv` (crawler.py lines 91-108).  A missing file
yields an empty frame at once; a zero-byte file makes `pd.read_csv` raise
`EmptyDataError` under both engines, so the exception escapes; otherwise
bad lines are skipped and requested-but-absent columns are filled with NA. -/
def safe_read_csv (s : PStore) (usecols : Option (List String)) : Except String DF :=
  match s with
  | PStore.absent => Except.ok ⟨[], []⟩
  | PStore.emptyFile => Except.error "EmptyDataError: No columns to parse from file"
  | PStore.table df =>
      let base : DF := ⟨df.cols, readRows df.cols df.rows⟩
      match usecols with
      | none => Except.ok base
      | some cs =>
          if cs = [] then Except.ok base
          else Except.ok (selectCols
            (cs.foldl (fun d c => if c ∈ d.cols then d else addNACol d c) base) cs)

/-- Model of `upgrade_daily_schema_if_needed` (crawler.py lines 110-140).
The store value returned is the store after the call: unchanged when the
source does not rewrite the file, the rewritten table when it does. -/
def upgrade_daily_schema_if_needed (s : PStore) : Except String PStore :=
  if s = PStore.absent then Except.ok s
  else
    match safe_read_csv s none with
    | Except.error e => Except.error e
    | Except.ok df =>
        if df.rows = [] then Except.ok s
        else if df.cols = SCHEMA_V1 then
          Except.ok (PStore.table
            (selectCols (addNACol (addNACol df "day_growth_pct") "week_growth_pct") SCHEMA_V2))
        else
          let missing := GROWTH_COLS.filter (fun c => decide (c ∉ df.cols))
          if missing = [] then Except.ok s
          else
            let df2 := missing.foldl addNACol df
            let ordered := SCHEMA_V2.filter (fun c => decide (c ∈ df2.cols)) ++
              df2.cols.filter (fun c => decide (c ∉ SCHEMA_V2))
            Except.ok (PStore.table (selectCols df2 ordered))

/-- The growth columns a drift-layout frame is missing. -/
def missingOf (df : DF) : List String := GROWTH_COLS.filter (fun c => decide (c ∉ df.cols))

/-- Model of `append_csv` (crawler.py lines 75-82): a fresh file gets the
header first; an existing file only gets the rows appended.  A zero-byte
file exists, so it gets no header and a later read takes the first data
row as the header. -/
def cellText : Cell → String
  | Cell.blank => ""
  | Cell.s v => v
  | Cell.i v => toString v
  | Cell.q v => toString v

/-- Append rows to the store, writing a header only when the file is new. -/
def appendStore (s : PStore) (fieldnames : List String) (rows : List (List Cell)) : PStore :=
  match s with
  | PStore.absent => PStore.table ⟨fieldnames, rows⟩
  | PStore.emptyFile => PStore.table ⟨(rows.headD []).map cellText, rows.tailD []⟩
  | PStore.table df => PStore.table ⟨df.cols, df.rows ++ rows⟩

/-! Growth calculator (`compute_growth`, crawler.py lines 143-194). -/

/-- One observation of the current batch, before enrichment. -/
structure Obs where
  date : Int
  keyword : String
  count : Int
  status : String
deriving DecidableEq

/-- One enriched observation; absent growth is a first-class `none`. -/
structure RRow where
  date : Int
  keyword : String
  count : Int
  status : String
  day_growth_pct : Option ℚ
  week_growth_pct : Option ℚ
deriving DecidableEq

/-- One usable history record after the `dropna` of `compute_growth`
(parsed date, parsed keyword; the count cell is converted per use). -/
structure HistRow where
  date : Int
  keyword : String
  count : Cell
deriving DecidableEq

/-- Model of Python `int()` applied to a cell (used via
`int(base_series.iloc[0])`); a failure is `none` (the `except` branch). -/
def cellToInt : Cell → Option Int
  | Cell.blank => none
  | Cell.s v => v.toInt?
  | Cell.i v => some v
  | Cell.q v => some (v.num / (v.den : Int))

/-- Model of `pd.to_datetime(..., errors="coerce")` on a modelled cell:
dates are integer day indices, anything else coerces to missing. -/
def parseDateCell : Cell → Option Int
  | Cell.i v => some v
  | _ => none

/-- A keyword cell must be text to survive the load. -/
def parseKeyCell : Cell → Option String
  | Cell.s v => some v
  | _ => none

/-- Model of the history preparation in `compute_growth` (lines 151-161):
read `daily.csv` tolerantly, keep the `date, keyword, count` columns
(absent ones all-NA), coerce dates, and drop rows with a missing date,
keyword or count. -/
def loadHist (s : PStore) : Except String (List HistRow) :=
  match safe_read_csv s none with
  | Except.error e => Except.error e
  | Except.ok hist =>
      if hist.rows = [] then Except.ok []
      else Except.ok (hist.rows.filterMap (fun r =>
        match parseDateCell (getCellRow hist.cols r "date"),
            parseKeyCell (getCellRow hist.cols r "keyword"),
            getCellRow hist.cols r "count" with
        | some _, some _, Cell.blank => none
        | some d, some k, c => some ⟨d, k, c⟩
        | _, _, _ => none))

/-- The count cells of the history records matching `(keyword, date)`, in
History's stored order (`hist.loc[mask, "count"]`, lines 172-173). -/
def baseMatches (hist : List HistRow) (kw : String) (d : Int) : List Cell :=
  (hist.filter (fun h => decide (h.keyword = kw ∧ h.date = d))).map (fun h => h.count)

/-- Body of the inner `pct` helper once a base cell is at hand: `int()` it,
refuse a non-positive base, otherwise `(curr - base) / base * 100`. -/
def growthFrom (curr : Int) (c : Cell) : Option ℚ :=
  match cellToInt c with
  | none => none
  | some base => if base ≤ 0 then none else some (((curr : ℚ) - (base : ℚ)) / (base : ℚ) * 100)

/-- The inner `pct` helper of `compute_growth` (lines 175-184): an empty
base series gives `None`, else the first entry is the baseline. -/
def pct (curr : Int) (cells : List Cell) : Option ℚ :=
  match cells.head? with
  | none => none
  | some c => growthFrom curr c

/-- Python `round(x, 2)` on rationals: round half to even. -/
def roundHalfEven (x : ℚ) : Int :=
  let f : Int := Int.floor x
  let r : ℚ := x - (f : ℚ)
  if r < 1 / 2 then f
  else if 1 / 2 < r then f + 1
  else if f % 2 = 0 then f else f + 1

/-- Round a rational to 2 decimal places, half to even. -/
def round2 (x : ℚ) : ℚ := ((roundHalfEven (x * 100) : ℚ)) / 100

/-- Enrichment of one observation of the batch (lines 164-192): baseline
day `date - 1`, baseline week `date - 7`, each growth rounded when present
and left absent otherwise. -/
def enrichRow (hist : List HistRow) (o : Obs) : RRow :=
  { date := o.date
    keyword := o.keyword
    count := o.count
    status := o.status
    day_growth_pct := (pct o.count (baseMatches hist o.keyword (o.date - 1))).map round2
    week_growth_pct := (pct o.count (baseMatches hist o.keyword (o.date - 7))).map round2 }

/-- Model of `compute_growth`: enrich every observation of the batch. -/
def compute_growth (batch : List Obs) (hist : List HistRow) : List RRow :=
  batch.map (enrichRow hist)

/-! Riser ranker (`write_top_risers`, crawler.py lines 243-266). -/

/-- Tier 1 candidates: week growth present and count at least 50
(`df[(df["week_growth_pct"].notna()) & (df["count"] >= 50)]`). -/
def tier1 (rows : List RRow) : List RRow :=
  rows.filter (fun r => r.week_growth_pct.isSome && decide (50 ≤ r.count))

/-- Tier 2 candidates: day growth present and count at least 50. -/
def tier2 (rows : List RRow) : List RRow :=
  rows.filter (fun r => r.day_growth_pct.isSome && decide (50 ≤ r.count))

/-- Sort key for tier 1: the week growth (present on every tier-1 row). -/
def wkey (r : RRow) : ℚ := r.week_growth_pct.getD 0

/-- Sort key for tier 2: the day growth (present on every tier-2 row). -/
def dkey (r : RRow) : ℚ := r.day_growth_pct.getD 0

/-- Sort key for tier 3: the raw count. -/
def ckey (r : RRow) : ℚ := (r.count : ℚ)

/-- Model of `base.sort_values(sort_col, ascending=False)`: a comparison
sort by descending key. -/
def sortDescBy (key : RRow → ℚ) (l : List RRow) : List RRow :=
  List.insertionSort (fun a b => key b ≤ key a) l

/-- The selection of `write_top_risers` (lines 250-260): first non-empty
tier, sorted descending by that tier's key, truncated to 10 rows. -/
def selectTopRisers (rows : List RRow) : List RRow :=
  let t1 := tier1 rows
  if t1 ≠ [] then (sortDescBy wkey t1).take 10
  else
    let t2 := tier2 rows
    if t2 ≠ [] then (sortDescBy dkey t2).take 10
    else (sortDescBy ckey rows).take 10

/-- The filter of the tier that actually won for a given batch. -/
def activeFilter (rows : List RRow) (r : RRow) : Prop :=
  if tier1 rows ≠ [] then r.week_growth_pct.isSome = true ∧ 50 ≤ r.count
  else if tier2 rows ≠ [] then r.day_growth_pct.isSome = true ∧ 50 ≤ r.count
  else True

/-- The sort key of the tier that actually won for a given batch. -/
def activeKey (rows : List RRow) : RRow → ℚ :=
  if tier1 rows ≠ [] then wkey else if tier2 rows ≠ [] then dkey else ckey

/-- Column order of the emitted report (`cols` at line 261). -/
def riserCols : List String :=
  ["date", "keyword", "count", "day_growth_pct", "week_growth_pct", "status"]

/-- Decimal text of a rational with two fractional digits, trimmed the way
Python float repr prints values produced by `round(x, 2)`. -/
def ratStr (x : ℚ) : String :=
  let a : ℚ := |x|
  let ip : Int := Int.floor a
  let fr : Int := Int.floor ((a - (ip : ℚ)) * 100)
  let frS : String :=
    if fr % 10 = 0 then toString (fr / 10)
    else if fr < 10 then "0" ++ toString fr else toString fr
  (if x < 0 then "-" else "") ++ toString ip ++ "." ++ frS

/-- Rendering of a growth field by the report writer.  `write_top_risers`
coerces the column with `pd.to_numeric(..., errors="coerce")`, so an
absent value is the float NaN, and `csv.DictWriter` stringifies it with
`str`, producing the text `nan` (never an empty field). -/
def renderGrowthField : Option ℚ → String
  | none => "nan"
  | some v => ratStr v

/-- One rendered report row, in `riserCols` order. -/
def renderRiserRow (r : RRow) : List String :=
  [toString r.date, r.keyword, toString r.count,
    renderGrowthField r.day_growth_pct, renderGrowthField r.week_growth_pct, r.status]

/-- Model of `write_top_risers`: the emitted header and rendered rows. -/
def write_top_risers (rows : List RRow) : List String × List (List String) :=
  (riserCols, (selectTopRisers rows).map renderRiserRow)

/-- The cell written for a growth field by `append_csv`'s caller:
`compute_growth` emits an empty string for an absent growth, a rounded
number otherwise. -/
def growthCell : Option ℚ → Cell
  | none => Cell.blank
  | some v => Cell.q v

/-- The cells `csv.DictWriter` writes for one enriched observation under
fieldnames `SCHEMA_V2` (step 4 of `main`). -/
def rrowToCells (r : RRow) : List Cell :=
  [Cell.i r.date, Cell.s r.keyword, Cell.i r.count, Cell.s r.status,
    growthCell r.day_growth_pct, growthCell r.week_growth_pct]

/-- The logical `(date, keyword, count)` triple of a stored row, as the
history loader parses it back. -/
def extractTriple (cols : List String) (r : List Cell) : Option (Int × String × Int) :=
  match parseDateCell (getCellRow cols r "date"),
      parseKeyCell (getCellRow cols r "keyword"),
      cellToInt (getCellRow cols r "count") with
  | some d, some k, some c => some (d, k, c)
  | _, _, _ => none

/-- Model of `read_keywords` (crawler.py lines 51-63). The file is `none`
when absent, otherwise its list of raw lines. -/
def pySpace (c : Char) : Bool :=
  c = ' ' || c = '\t' || c = '\n' || c = '\r' || c = '\x0b' || c = '\x0c'

/-- Python `str.strip()`: drop leading and trailing whitespace. -/
def pyStrip (s : String) : String :=
  (((s.toList.dropWhile pySpace).reverse.dropWhile pySpace).reverse).asString

/-- De-duplication preserving first-seen order (the `seen`/`result` loop). -/
def dedupKeep (l : List String) : List String :=
  l.foldl (fun acc kw => if kw ∈ acc then acc else acc ++ [kw]) []

/-- Model of `read_keywords`: missing file, or empty result after stripping
blank lines and de-duplicating, falls back to the default list. -/
def read_keywords (file : Option (List String)) : List String :=
  match file with
  | none => DEFAULT_KEYWORDS
  | some lns =>
      let kws := (lns.map pyStrip).filter (fun s => decide (s ≠ ""))
      let result := dedupKeep kws
      if result = [] then DEFAULT_KEYWORDS else result

end Crawler

namespace Crawler

/-- C1: for an observation whose baseline lookup finds a first row with a
positive integer count, the growth is the percentage formula rounded to 2
decimals; with no matching baseline row, or a non-positive base, the field
is left absent (the enrichment is a total function, so it never raises). -/
theorem growth_formula_spec (hist : List HistRow) (o : Obs) :
    (∀ c b, (baseMatches hist o.keyword (o.date - 1)).head? = some c →
      cellToInt c = some b → 0 < b →
      (enrichRow hist o).day_growth_pct =
        some (round2 (((o.count : ℚ) - (b : ℚ)) / (b : ℚ) * 100))) ∧
    (baseMatches hist o.keyword (o.date - 1) = [] →
      (enrichRow hist o).day_growth_pct = none) ∧
    (∀ c b, (baseMatches hist o.keyword (o.date - 1)).head? = some c →
      cellToInt c = some b → b ≤ 0 →
      (enrichRow hist o).day_growth_pct = none) ∧
    (∀ c b, (baseMatches hist o.keyword (o.date - 7)).head? = some c →
      cellToInt c = some b → 0 < b →
      (enrichRow hist o).week_growth_pct =
        some (round2 (((o.count : ℚ) - (b : ℚ)) / (b : ℚ) * 100))) ∧
    (baseMatches hist o.keyword (o.date - 7) = [] →
      (enrichRow hist o).week_growth_pct = none) ∧
    (∀ c b, (baseMatches hist o.keyword (o.date - 7)).head? = some c →
      cellToInt c = some b → b ≤ 0 →
      (enrichRow hist o).week_growth_pct = none) := by
  refine ⟨?_, ?_, ?_, ?_, ?_, ?_⟩
  · intro c b hc hb hpos
    simp only [enrichRow, pct, hc, growthFrom, hb]
    rw [if_neg (by omega)]
    simp [Option.map]
  · intro hnil
    simp [enrichRow, pct, hnil]
  · intro c b hc hb hle
    simp only [enrichRow, pct, hc, growthFrom, hb]
    rw [if_pos hle]
    simp [Option.map]
  · intro c b hc hb hpos
    simp only [enrichRow, pct, hc, growthFrom, hb]
    rw [if_neg (by omega)]
    simp [Option.map]
  · intro hnil
    simp [enrichRow, pct, hnil]
  · intro c b hc hb hle
    simp only [enrichRow, pct, hc, growthFrom, hb]
    rw [if_pos hle]
    simp [Option.map]

/-- Witness for C1 at a concrete history and a concrete observation
(base 100, current 120 gives 20.0; an empty lookup gives an absent week). -/
theorem growth_formula_spec_witness :
    (enrichRow [⟨0, "dress", Cell.i 100⟩] ⟨1, "dress", 120, "ok"⟩).day_growth_pct =
      some (round2 ((((120 : Int) : ℚ) - ((100 : Int) : ℚ)) / ((100 : Int) : ℚ) * 100)) ∧
    (enrichRow [⟨0, "dress", Cell.i 100⟩] ⟨1, "dress", 120, "ok"⟩).week_growth_pct = none :=
  ⟨(growth_formula_spec [⟨0, "dress", Cell.i 100⟩] ⟨1, "dress", 120, "ok"⟩).1
      (Cell.i 100) 100 (by decide) (by decide) (by decide),
    (growth_formula_spec [⟨0, "dress", Cell.i 100⟩] ⟨1, "dress", 120, "ok"⟩).2.2.2.2.1
      (by decide)⟩

/-- C2: when several history records match the baseline key, the first
matching record in History's stored order supplies the baseline; the
records after it do not influence the result. -/
theorem growth_first_match_baseline (hist : List HistRow) (o : Obs) (r : HistRow)
    (rest : List HistRow) :
    (hist.filter (fun h => decide (h.keyword = o.keyword ∧ h.date = o.date - 1)) =
        r :: rest →
      (enrichRow hist o).day_growth_pct = (growthFrom o.count r.count).map round2) ∧
    (hist.filter (fun h => decide (h.keyword = o.keyword ∧ h.date = o.date - 7)) =
        r :: rest →
      (enrichRow hist o).week_growth_pct = (growthFrom o.count r.count).map round2) := by
  constructor
  · intro hfil
    have hbm : baseMatches hist o.keyword (o.date - 1) =
        (r :: rest).map (fun h => h.count) := by
      unfold baseMatches
      rw [hfil]
    simp [enrichRow, pct, hbm]
  · intro hfil
    have hbm : baseMatches hist o.keyword (o.date - 7) =
        (r :: rest).map (fun h => h.count) := by
      unfold baseMatches
      rw [hfil]
    simp [enrichRow, pct, hbm]

/-- Witness for C2: a history with two records for the same key; the first
one (base 100) is used, the later duplicate (base 200) is ignored. -/
theorem growth_first_match_baseline_witness :
    (enrichRow [⟨0, "dress", Cell.i 100⟩, ⟨0, "dress", Cell.i 200⟩]
        ⟨1, "dress", 120, "ok"⟩).day_growth_pct =
      (growthFrom 120 (Cell.i 100)).map round2 :=
  (growth_first_match_baseline [⟨0, "dress", Cell.i 100⟩, ⟨0, "dress", Cell.i 200⟩]
      ⟨1, "dress", 120, "ok"⟩ ⟨0, "dress", Cell.i 100⟩ [⟨0, "dress", Cell.i 200⟩]).1
    (by decide)

/-- C10: a keyword file that exists but holds only whitespace-only lines
makes the provider fall back to the built-in default list, which is not
empty, so a batch never runs with zero keywords. -/
theorem keywords_blank_file_default (lns : List String)
    (h : ∀ l ∈ lns, pyStrip l = "") :
    read_keywords (some lns) = DEFAULT_KEYWORDS ∧ read_keywords (some lns) ≠ [] := by
  have hfil : (lns.map pyStrip).filter (fun s => !decide (s = "")) = [] := by
    rw [List.filter_eq_nil_iff]
    intro a ha
    rcases List.mem_map.mp ha with ⟨l, hl, rfl⟩
    simp [h l hl]
  constructor
  · simp [read_keywords, hfil, dedupKeep]
  · simp [read_keywords, hfil, dedupKeep, DEFAULT_KEYWORDS]

/-- Witness for C10: a file of one all-space line and one empty line. -/
theorem keywords_blank_file_default_witness :
    read_keywords (some ["  ", ""]) = DEFAULT_KEYWORDS ∧
      read_keywords (some ["  ", ""]) ≠ [] :=
  keywords_blank_file_default ["  ", ""] (by decide)

/-- A descending-key sort is sorted for the corresponding relation. -/
lemma sortDescBy_sorted (key : RRow → ℚ) (l : List RRow) :
    (sortDescBy key l).Sorted (fun a b => key b ≤ key a) := by
  haveI : IsTotal RRow (fun a b => key b ≤ key a) := ⟨fun a b => le_total (key b) (key a)⟩
  haveI : IsTrans RRow (fun a b => key b ≤ key a) :=
    ⟨fun _ _ _ hab hbc => le_trans hbc hab⟩
  exact List.sorted_insertionSort _ l

/-- Sorting permutes, so it preserves membership. -/
lemma mem_sortDescBy (key : RRow → ℚ) (l : List RRow) (a : RRow) :
    a ∈ sortDescBy key l ↔ a ∈ l :=
  (List.perm_insertionSort _ l).mem_iff

/-- C3: the riser selection is tiered with the first non-empty tier
winning, never returns more than 10 rows, every returned row satisfies the
active tier's filter, and the output is sorted descending by the active
tier's key. -/
theorem top_risers_tier_spec (rows : List RRow) :
    (selectTopRisers rows).length ≤ 10 ∧
    (∀ r ∈ selectTopRisers rows, activeFilter rows r) ∧
    (selectTopRisers rows).Sorted (fun a b => activeKey rows b ≤ activeKey rows a) ∧
    (tier1 rows ≠ [] →
      selectTopRisers rows = (sortDescBy wkey (tier1 rows)).take 10) ∧
    (tier1 rows = [] → tier2 rows ≠ [] →
      selectTopRisers rows = (sortDescBy dkey (tier2 rows)).take 10) ∧
    (tier1 rows = [] → tier2 rows = [] →
      selectTopRisers rows = (sortDescBy ckey rows).take 10) := by
  by_cases h1 : tier1 rows = []
  · by_cases h2 : tier2 rows = []
    · have hsel : selectTopRisers rows = (sortDescBy ckey rows).take 10 := by
        simp [selectTopRisers, h1, h2]
      refine ⟨?_, ?_, ?_, ?_, ?_, ?_⟩
      · rw [hsel]; exact List.length_take_le 10 _
      · intro r _
        simp [activeFilter, h1, h2]
      · have := List.Pairwise.sublist (List.take_sublist 10 (sortDescBy ckey rows))
          (sortDescBy_sorted ckey rows)
        rw [hsel]
        simpa [activeKey, h1, h2] using this
      · intro hc; exact absurd h1 hc
      · intro _ hc; exact absurd h2 hc
      · intro _ _; exact hsel
    · have hsel : selectTopRisers rows = (sortDescBy dkey (tier2 rows)).take 10 := by
        simp [selectTopRisers, h1, h2]
      refine ⟨?_, ?_, ?_, ?_, ?_, ?_⟩
      · rw [hsel]; exact List.length_take_le 10 _
      · intro r hr
        rw [hsel] at hr
        have hr2 : r ∈ tier2 rows :=
          (mem_sortDescBy dkey (tier2 rows) r).mp
            ((List.take_sublist 10 _).subset hr)
        have := (List.mem_filter.mp hr2).2
        simp only [Bool.and_eq_true, decide_eq_true_eq] at this
        simp [activeFilter, h1, h2, this.1, this.2]
      · have := List.Pairwise.sublist (List.take_sublist 10 (sortDescBy dkey (tier2 rows)))
          (sortDescBy_sorted dkey (tier2 rows))
        rw [hsel]
        simpa [activeKey, h1, h2] using this
      · intro hc; exact absurd h1 hc
      · intro _ _; exact hsel
      · intro _ hc; exact absurd hc h2
  · have hsel : selectTopRisers rows = (sortDescBy wkey (tier1 rows)).take 10 := by
      simp [selectTopRisers, h1]
    refine ⟨?_, ?_, ?_, ?_, ?_, ?_⟩
    · rw [hsel]; exact List.length_take_le 10 _
    · intro r hr
      rw [hsel] at hr
      have hr1 : r ∈ tier1 rows :=
        (mem_sortDescBy wkey (tier1 rows) r).mp
          ((List.take_sublist 10 _).subset hr)
      have := (List.mem_filter.mp hr1).2
      simp only [Bool.and_eq_true, decide_eq_true_eq] at this
      simp [activeFilter, h1, this.1, this.2]
    · have := List.Pairwise.sublist (List.take_sublist 10 (sortDescBy wkey (tier1 rows)))
        (sortDescBy_sorted wkey (tier1 rows))
      rw [hsel]
      simpa [activeKey, h1] using this
    · intro _; exact hsel
    · intro hc; exact absurd hc h1
    · intro hc; exact absurd hc h1

/-- Witness for C3 at a concrete batch whose tier 1 is non-empty: the
returned rows satisfy the tier-1 filter and the tier-1 equation holds. -/
theorem top_risers_tier_spec_witness :
    activeFilter
        [⟨0, "a", 100, "ok", none, some 5⟩, ⟨0, "b", 60, "ok", none, some 9⟩]
        ⟨0, "b", 60, "ok", none, some 9⟩ ∧
      (selectTopRisers
          [⟨0, "a", 100, "ok", none, some 5⟩, ⟨0, "b", 60, "ok", none, some 9⟩]).length ≤ 10 ∧
      selectTopRisers
          [⟨0, "a", 100, "ok", none, some 5⟩, ⟨0, "b", 60, "ok", none, some 9⟩] =
        (sortDescBy wkey (tier1
          [⟨0, "a", 100, "ok", none, some 5⟩, ⟨0, "b", 60, "ok", none, some 9⟩])).take 10 :=
  ⟨(top_risers_tier_spec
        [⟨0, "a", 100, "ok", none, some 5⟩, ⟨0, "b", 60, "ok", none, some 9⟩]).2.1
      ⟨0, "b", 60, "ok", none, some 9⟩ (by decide),
    (top_risers_tier_spec
        [⟨0, "a", 100, "ok", none, some 5⟩, ⟨0, "b", 60, "ok", none, some 9⟩]).1,
    (top_risers_tier_spec
        [⟨0, "a", 100, "ok", none, some 5⟩, ⟨0, "b", 60, "ok", none, some 9⟩]).2.2.2.1
      (by decide)⟩

/-- C8 counterexample: a batch of one row with both growths absent lands
in the report (tier 3), and its absent day growth field is rendered as the
text `nan`, not as an empty field, because `pd.to_numeric` turns the
absent value into the float NaN and `csv.DictWriter` stringifies it. -/
theorem riser_render_blank_counterexample :
    ((write_top_risers [⟨0, "kw", 10, "ok", none, none⟩]).2.headD []).getD 3 "" = "nan" ∧
      ¬ ((write_top_risers [⟨0, "kw", 10, "ok", none, none⟩]).2.headD []).getD 3 "" = "" ∧
      (⟨0, "kw", 10, "ok", none, none⟩ : RRow) ∈
        selectTopRisers [⟨0, "kw", 10, "ok", none, none⟩] ∧
      (⟨0, "kw", 10, "ok", none, none⟩ : RRow).day_growth_pct = none := by
  decide

/-- C8 as amended: every emitted row carries all six columns in the
documented order, and an absent growth value is rendered as the text
`nan` — never `0` and never a blank field. -/
theorem riser_render_spec (rows : List RRow) :
    (write_top_risers rows).1 = riserCols ∧
    (write_top_risers rows).1.length = 6 ∧
    (write_top_risers rows).2 = (selectTopRisers rows).map renderRiserRow ∧
    (∀ fs ∈ (write_top_risers rows).2, fs.length = 6) ∧
    (∀ r ∈ selectTopRisers rows,
      (r.day_growth_pct = none →
        (renderRiserRow r).getD 3 "" = "nan" ∧
        (renderRiserRow r).getD 3 "" ≠ "0" ∧ (renderRiserRow r).getD 3 "" ≠ "") ∧
      (r.week_growth_pct = none →
        (renderRiserRow r).getD 4 "" = "nan" ∧
        (renderRiserRow r).getD 4 "" ≠ "0" ∧ (renderRiserRow r).getD 4 "" ≠ "")) := by
  refine ⟨rfl, rfl, rfl, ?_, ?_⟩
  · intro fs hfs
    rcases List.mem_map.mp hfs with ⟨r, _, rfl⟩
    rfl
  · intro r _
    constructor
    · intro hd
      refine ⟨?_, ?_, ?_⟩ <;> simp [renderRiserRow, renderGrowthField, hd]
    · intro hw
      refine ⟨?_, ?_, ?_⟩ <;> simp [renderRiserRow, renderGrowthField, hw]

/-- Witness for C8 (amended) at a concrete batch: the rendered report row
has six fields and its absent week growth renders as `nan`. -/
theorem riser_render_spec_witness :
    (∀ fs ∈ (write_top_risers [⟨0, "kw", 80, "ok", some 2, none⟩]).2, fs.length = 6) ∧
      (renderRiserRow (⟨0, "kw", 80, "ok", some 2, none⟩ : RRow)).getD 4 "" = "nan" :=
  ⟨(riser_render_spec [⟨0, "kw", 80, "ok", some 2, none⟩]).2.2.2.1,
    ((riser_render_spec [⟨0, "kw", 80, "ok", some 2, none⟩]).2.2.2.2
        ⟨0, "kw", 80, "ok", some 2, none⟩ (by decide)).2 (by decide) |>.1⟩

/-! Structural lemmas about the tabular model, shared by the store claims. -/

/-- Reindexing a row built by mapping over the same column list recovers
the mapped value at every listed column. -/
lemma getCellRow_map (f : String → Cell) (c : String) :
    ∀ order : List String, c ∈ order → getCellRow order (order.map f) c = f c := by
  intro order
  induction order with
  | nil => intro h; cases h
  | cons c0 cs ih =>
      intro hc
      by_cases h0 : c0 = c
      · subst h0; simp [getCellRow]
      · have hc2 : c ∈ cs := by
          rcases List.mem_cons.mp hc with h | h
          · exact absurd h.symm h0
          · exact h
        simp [getCellRow, h0, ih hc2]

/-- A lookup of a column of the left block ignores appended columns. -/
lemma getCellRow_append_left (c : String) :
    ∀ (cols : List String) (r : List Cell) (m : List String) (p : List Cell),
      r.length = cols.length → c ∈ cols →
      getCellRow (cols ++ m) (r ++ p) c = getCellRow cols r c := by
  intro cols
  induction cols with
  | nil => intro r m p _ hc; cases hc
  | cons c0 cs ih =>
      intro r m p hlen hc
      cases r with
      | nil => simp at hlen
      | cons v vs =>
          by_cases h0 : c0 = c
          · simp [getCellRow, h0]
          · have hc2 : c ∈ cs := by
              rcases List.mem_cons.mp hc with h | h
              · exact absurd h.symm h0
              · exact h
            have hlen2 : vs.length = cs.length := by simpa using hlen
            simp [getCellRow, h0, ih vs m p hlen2 hc2]

/-- A lookup of a column outside the left block lands in the right block. -/
lemma getCellRow_append_right (c : String) :
    ∀ (cols : List String) (r : List Cell) (m : List String) (p : List Cell),
      r.length = cols.length → c ∉ cols →
      getCellRow (cols ++ m) (r ++ p) c = getCellRow m p c := by
  intro cols
  induction cols with
  | nil =>
      intro r m p hlen _
      have hr : r = [] := List.length_eq_zero.mp (by simpa using hlen)
      subst hr
      rfl
  | cons c0 cs ih =>
      intro r m p hlen hc
      cases r with
      | nil => simp at hlen
      | cons v vs =>
          have h0 : c0 ≠ c := fun h => hc (h ▸ List.mem_cons_self _ _)
          have hlen2 : vs.length = cs.length := by simpa using hlen
          have hc2 : c ∉ cs := fun h => hc (List.mem_cons_of_mem _ h)
          simp [getCellRow, h0, ih vs m p hlen2 hc2]

/-- Looking anything up among blank cells yields a blank cell. -/
lemma getCellRow_blanks (c : String) :
    ∀ (m : List String) (n : Nat), getCellRow m (blanks n) c = Cell.blank := by
  intro m
  induction m with
  | nil => intro n; rfl
  | cons c0 cs ih =>
      intro n
      cases n with
      | zero => rfl
      | succ k =>
          show getCellRow (c0 :: cs) (Cell.blank :: blanks k) c = Cell.blank
          by_cases h0 : c0 = c <;> simp [getCellRow, h0, ih k]

/-- Adding NA columns in a left fold appends the names and pads each row
with the same number of blank cells. -/
lemma foldl_addNACol :
    ∀ (ms : List String) (df : DF),
      ms.foldl addNACol df =
        ⟨df.cols ++ ms, df.rows.map (fun r => r ++ blanks ms.length)⟩ := by
  intro ms
  induction ms with
  | nil =>
      intro df
      cases df with
      | mk cols rows => simp [blanks]
  | cons c cs ih =>
      intro df
      rw [List.foldl_cons, ih]
      cases df with
      | mk cols rows =>
          simp [addNACol, blanks, List.replicate_succ, List.map_map, Function.comp_def,
            List.append_assoc]

/-- Every row surviving the tolerant intake has the header's width. -/
lemma readRows_all_length (cols : List String) (rows : List (List Cell)) :
    ∀ r ∈ readRows cols rows, r.length = cols.length := by
  intro r hr
  rcases List.mem_map.mp hr with ⟨r0, hr0, rfl⟩
  have hle : r0.length ≤ cols.length := by
    have := (List.mem_filter.mp hr0).2
    simpa using this
  simp only [padRow, blanks, List.length_append, List.length_replicate]
  omega

/-- The tolerant intake leaves a rectangular table untouched. -/
lemma readRows_self (cols : List String) (rows : List (List Cell))
    (h : ∀ r ∈ rows, r.length = cols.length) : readRows cols rows = rows := by
  unfold readRows
  rw [List.filter_eq_self.mpr (by intro r hr; simpa using (h r hr).le)]
  have : ∀ r ∈ rows, padRow cols.length r = r := by
    intro r hr
    simp [padRow, blanks, h r hr]
  rw [List.map_congr_left this, List.map_id']

/-- The tolerant intake distributes over appended row blocks. -/
lemma readRows_append (cols : List String) (a b : List (List Cell)) :
    readRows cols (a ++ b) = readRows cols a ++ readRows cols b := by
  simp [readRows, List.filter_append]

/-- Reindexed rows all have the width of the requested column list. -/
lemma selectCols_rect (df : DF) (order : List String) :
    ∀ r ∈ (selectCols df order).rows, r.length = order.length := by
  intro r hr
  rcases List.mem_map.mp hr with ⟨r0, _, rfl⟩
  simp

/-- Definitional reduction of the migration on an existing table store:
the conditions and the rewritten frames, spelled out. -/
lemma upgrade_table_eq (df : DF) :
    upgrade_daily_schema_if_needed (PStore.table df) =
      (if readRows df.cols df.rows = [] then Except.ok (PStore.table df)
       else if df.cols = SCHEMA_V1 then
        Except.ok (PStore.table (selectCols
          (addNACol (addNACol ⟨df.cols, readRows df.cols df.rows⟩ "day_growth_pct")
            "week_growth_pct") SCHEMA_V2))
       else if GROWTH_COLS.filter (fun c => decide (c ∉ df.cols)) = [] then
        Except.ok (PStore.table df)
       else
        Except.ok (PStore.table (selectCols
          ((GROWTH_COLS.filter (fun c => decide (c ∉ df.cols))).foldl addNACol
            ⟨df.cols, readRows df.cols df.rows⟩)
          (SCHEMA_V2.filter (fun c => decide (c ∈
              ((GROWTH_COLS.filter (fun c => decide (c ∉ df.cols))).foldl addNACol
                ⟨df.cols, readRows df.cols df.rows⟩).cols)) ++
            ((GROWTH_COLS.filter (fun c => decide (c ∉ df.cols))).foldl addNACol
              ⟨df.cols, readRows df.cols df.rows⟩).cols.filter
                (fun c => decide (c ∉ SCHEMA_V2)))))) := rfl

/-- A store whose layout is not v1 and already carries both growth columns
is returned unchanged by the migration (no rewrite happens). -/
lemma upgrade_noop (df : DF) (h3 : df.cols ≠ SCHEMA_V1)
    (h1 : "day_growth_pct" ∈ df.cols) (h2 : "week_growth_pct" ∈ df.cols) :
    upgrade_daily_schema_if_needed (PStore.table df) = Except.ok (PStore.table df) := by
  rw [upgrade_table_eq]
  by_cases hemp : readRows df.cols df.rows = []
  · rw [if_pos hemp]
  · rw [if_neg hemp, if_neg h3, if_pos (by simp [GROWTH_COLS, h1, h2])]

/-- Any successful migration returns either the input store or a table
that is not v1-layout and carries both growth columns. -/
lemma upgrade_cases (s t : PStore)
    (h : upgrade_daily_schema_if_needed s = Except.ok t) :
    t = s ∨ ∃ df2 : DF, t = PStore.table df2 ∧ df2.cols ≠ SCHEMA_V1 ∧
      "day_growth_pct" ∈ df2.cols ∧ "week_growth_pct" ∈ df2.cols := by
  cases s with
  | absent =>
      left
      have h0 : upgrade_daily_schema_if_needed PStore.absent = Except.ok PStore.absent := rfl
      rw [h0] at h
      exact (Except.ok.inj h).symm
  | emptyFile =>
      exact absurd h (by simp [upgrade_daily_schema_if_needed, safe_read_csv])
  | table df =>
      rw [upgrade_table_eq] at h
      by_cases hemp : readRows df.cols df.rows = []
      · rw [if_pos hemp] at h
        exact Or.inl (Except.ok.inj h).symm
      · rw [if_neg hemp] at h
        by_cases hv1 : df.cols = SCHEMA_V1
        · rw [if_pos hv1] at h
          right
          refine ⟨_, (Except.ok.inj h).symm, ?_, ?_, ?_⟩ <;>
            simp [selectCols, SCHEMA_V1, SCHEMA_V2]
        · rw [if_neg hv1] at h
          by_cases hmiss : GROWTH_COLS.filter (fun c => decide (c ∉ df.cols)) = []
          · rw [if_pos hmiss] at h
            exact Or.inl (Except.ok.inj h).symm
          · rw [if_neg hmiss] at h
            right
            have hcols2 :
                ((GROWTH_COLS.filter (fun c => decide (c ∉ df.cols))).foldl addNACol
                  ⟨df.cols, readRows df.cols df.rows⟩).cols =
                  df.cols ++ GROWTH_COLS.filter (fun c => decide (c ∉ df.cols)) := by
              rw [foldl_addNACol]
            have hday2 : "day_growth_pct" ∈
                df.cols ++ GROWTH_COLS.filter (fun c => decide (c ∉ df.cols)) := by
              by_cases hd : "day_growth_pct" ∈ df.cols
              · exact List.mem_append_left _ hd
              · refine List.mem_append_right _ ?_
                exact List.mem_filter.mpr ⟨by simp [GROWTH_COLS], decide_eq_true hd⟩
            have hweek2 : "week_growth_pct" ∈
                df.cols ++ GROWTH_COLS.filter (fun c => decide (c ∉ df.cols)) := by
              by_cases hd : "week_growth_pct" ∈ df.cols
              · exact List.mem_append_left _ hd
              · refine List.mem_append_right _ ?_
                exact List.mem_filter.mpr ⟨by simp [GROWTH_COLS], decide_eq_true hd⟩
            have hdayord : "day_growth_pct" ∈
                SCHEMA_V2.filter (fun c => decide (c ∈
                  ((GROWTH_COLS.filter (fun c => decide (c ∉ df.cols))).foldl addNACol
                    ⟨df.cols, readRows df.cols df.rows⟩).cols)) ++
                ((GROWTH_COLS.filter (fun c => decide (c ∉ df.cols))).foldl addNACol
                  ⟨df.cols, readRows df.cols df.rows⟩).cols.filter
                    (fun c => decide (c ∉ SCHEMA_V2)) := by
              refine List.mem_append_left _ ?_
              refine List.mem_filter.mpr ⟨by simp [SCHEMA_V2], decide_eq_true ?_⟩
              rw [hcols2]
              exact hday2
            have hweekord : "week_growth_pct" ∈
                SCHEMA_V2.filter (fun c => decide (c ∈
                  ((GROWTH_COLS.filter (fun c => decide (c ∉ df.cols))).foldl addNACol
                    ⟨df.cols, readRows df.cols df.rows⟩).cols)) ++
                ((GROWTH_COLS.filter (fun c => decide (c ∉ df.cols))).foldl addNACol
                  ⟨df.cols, readRows df.cols df.rows⟩).cols.filter
                    (fun c => decide (c ∉ SCHEMA_V2)) := by
              refine List.mem_append_left _ ?_
              refine List.mem_filter.mpr ⟨by simp [SCHEMA_V2], decide_eq_true ?_⟩
              rw [hcols2]
              exact hweek2
            refine ⟨_, (Except.ok.inj h).symm, ?_, ?_, ?_⟩
            · intro heq
              have hbad : "day_growth_pct" ∈ SCHEMA_V1 := by
                rw [← heq]
                exact hdayord
              simp [SCHEMA_V1] at hbad
            · exact hdayord
            · exact hweekord

/-- C4: migration leaves a current-layout store unchanged, and running it
twice on any store gives the same result as running it once. -/
theorem schema_migration_idempotent :
    (∀ df : DF, df.cols = SCHEMA_V2 →
      upgrade_daily_schema_if_needed (PStore.table df) = Except.ok (PStore.table df)) ∧
    (∀ s t : PStore, upgrade_daily_schema_if_needed s = Except.ok t →
      upgrade_daily_schema_if_needed t = Except.ok t) := by
  constructor
  · intro df hcols
    refine upgrade_noop df ?_ ?_ ?_ <;> rw [hcols] <;> simp [SCHEMA_V1, SCHEMA_V2]
  · intro s t h
    rcases upgrade_cases s t h with rfl | ⟨df2, rfl, hv1, h1, h2⟩
    · exact h
    · exact upgrade_noop df2 hv1 h1 h2

/-- Witness for C4: after a first run upgraded a concrete v1 store to the
current layout, a second run leaves the upgraded store unchanged. -/
theorem schema_migration_idempotent_witness :
    upgrade_daily_schema_if_needed
        (PStore.table ⟨SCHEMA_V2,
          [[Cell.i 0, Cell.s "k", Cell.i 1, Cell.s "ok", Cell.blank, Cell.blank]]⟩) =
      Except.ok
        (PStore.table ⟨SCHEMA_V2,
          [[Cell.i 0, Cell.s "k", Cell.i 1, Cell.s "ok", Cell.blank, Cell.blank]]⟩) :=
  schema_migration_idempotent.2
    (PStore.table ⟨SCHEMA_V1, [[Cell.i 0, Cell.s "k", Cell.i 1, Cell.s "ok"]]⟩)
    (PStore.table ⟨SCHEMA_V2,
      [[Cell.i 0, Cell.s "k", Cell.i 1, Cell.s "ok", Cell.blank, Cell.blank]]⟩)
    (by rfl)

/-- C5 counterexample: a drift-layout store that already holds both growth
columns but keeps an unrecognized column in front is left entirely
unchanged by the migration (no rewrite happens), so its extra column is
not moved after the recognized ones, contrary to the claim. -/
theorem schema_migration_drift_counterexample :
    upgrade_daily_schema_if_needed
        (PStore.table ⟨["extra", "date", "keyword", "count", "status",
            "day_growth_pct", "week_growth_pct"],
          [[Cell.s "x", Cell.i 0, Cell.s "k", Cell.i 1, Cell.s "ok",
            Cell.blank, Cell.blank]]⟩) =
      Except.ok
        (PStore.table ⟨["extra", "date", "keyword", "count", "status",
            "day_growth_pct", "week_growth_pct"],
          [[Cell.s "x", Cell.i 0, Cell.s "k", Cell.i 1, Cell.s "ok",
            Cell.blank, Cell.blank]]⟩) ∧
      ¬ (["extra", "date", "keyword", "count", "status",
            "day_growth_pct", "week_growth_pct"] =
          (["extra", "date", "keyword", "count", "status",
              "day_growth_pct", "week_growth_pct"].filter
            (fun c => decide (c ∈ SCHEMA_V2))) ++
          (["extra", "date", "keyword", "count", "status",
              "day_growth_pct", "week_growth_pct"].filter
            (fun c => decide (c ∉ SCHEMA_V2)))) :=
  ⟨rfl, by decide⟩

/-- C5 as amended: a missing store is a no-op; a store with no surviving
data rows is left unchanged; a non-v1 store already holding both growth
columns is left unchanged (its columns keep their positions); and a
non-empty non-v1 store missing at least one growth column is rewritten so
that exactly the missing growth columns are added as blanks, recognized
columns come first in current-layout order followed by the unrecognized
ones, no column is dropped, and every existing cell value is preserved. -/
theorem schema_migration_drift_spec :
    (upgrade_daily_schema_if_needed PStore.absent = Except.ok PStore.absent) ∧
    (∀ df : DF, readRows df.cols df.rows = [] →
      upgrade_daily_schema_if_needed (PStore.table df) = Except.ok (PStore.table df)) ∧
    (∀ df : DF, df.cols ≠ SCHEMA_V1 → "day_growth_pct" ∈ df.cols →
      "week_growth_pct" ∈ df.cols →
      upgrade_daily_schema_if_needed (PStore.table df) = Except.ok (PStore.table df)) ∧
    (∀ df : DF, (∀ r ∈ df.rows, r.length = df.cols.length) → df.rows ≠ [] →
      df.cols ≠ SCHEMA_V1 → missingOf df ≠ [] →
      ∃ df2 : DF,
        upgrade_daily_schema_if_needed (PStore.table df) =
          Except.ok (PStore.table df2) ∧
        df2.cols =
          SCHEMA_V2.filter (fun c => decide (c ∈ df.cols ++ missingOf df)) ++
            df.cols.filter (fun c => decide (c ∉ SCHEMA_V2)) ∧
        (∀ c ∈ df.cols, c ∈ df2.cols) ∧
        df2.rows.length = df.rows.length ∧
        List.Forall₂ (fun r r2 =>
            (∀ c ∈ df.cols, getCellRow df2.cols r2 c = getCellRow df.cols r c) ∧
            (∀ c ∈ missingOf df, getCellRow df2.cols r2 c = Cell.blank))
          df.rows df2.rows) := by
  refine ⟨rfl, ?_, ?_, ?_⟩
  · intro df h
    rw [upgrade_table_eq, if_pos h]
  · intro df h3 h1 h2
    exact upgrade_noop df h3 h1 h2
  · intro df hrect hne hv1 hmiss
    have hrr : readRows df.cols df.rows = df.rows := readRows_self _ _ hrect
    have hbase : (⟨df.cols, readRows df.cols df.rows⟩ : DF) = df := by rw [hrr]
    have hmiss2 : GROWTH_COLS.filter (fun c => decide (c ∉ df.cols)) ≠ [] := hmiss
    have hfilm : (GROWTH_COLS.filter (fun c => decide (c ∉ df.cols))).filter
        (fun c => decide (c ∉ SCHEMA_V2)) = [] := by
      rw [List.filter_eq_nil_iff]
      intro a ha
      have hag : a ∈ GROWTH_COLS := (List.mem_filter.mp ha).1
      simp only [GROWTH_COLS, List.mem_cons, List.not_mem_nil, or_false] at hag
      rcases hag with rfl | rfl <;> simp [SCHEMA_V2]
    have hmemord : ∀ c, c ∈ df.cols →
        c ∈ SCHEMA_V2.filter (fun x => decide (x ∈
            df.cols ++ GROWTH_COLS.filter (fun y => decide (y ∉ df.cols)))) ++
          (df.cols ++ GROWTH_COLS.filter (fun y => decide (y ∉ df.cols))).filter
            (fun x => decide (x ∉ SCHEMA_V2)) := by
      intro c hc
      by_cases hcv : c ∈ SCHEMA_V2
      · exact List.mem_append_left _
          (List.mem_filter.mpr ⟨hcv, decide_eq_true (List.mem_append_left _ hc)⟩)
      · exact List.mem_append_right _
          (List.mem_filter.mpr ⟨List.mem_append_left _ hc, decide_eq_true hcv⟩)
    have hmemmiss : ∀ c, c ∈ GROWTH_COLS.filter (fun y => decide (y ∉ df.cols)) →
        c ∈ SCHEMA_V2.filter (fun x => decide (x ∈
            df.cols ++ GROWTH_COLS.filter (fun y => decide (y ∉ df.cols)))) ++
          (df.cols ++ GROWTH_COLS.filter (fun y => decide (y ∉ df.cols))).filter
            (fun x => decide (x ∉ SCHEMA_V2)) := by
      intro c hc
      have hcv : c ∈ SCHEMA_V2 := by
        have hag : c ∈ GROWTH_COLS := (List.mem_filter.mp hc).1
        simp only [GROWTH_COLS, List.mem_cons, List.not_mem_nil, or_false] at hag
        rcases hag with rfl | rfl <;> simp [SCHEMA_V2]
      exact List.mem_append_left _
        (List.mem_filter.mpr ⟨hcv, decide_eq_true (List.mem_append_right _ hc)⟩)
    rw [upgrade_table_eq, hbase, hrr, if_neg hne, if_neg hv1, if_neg hmiss2]
    refine ⟨_, rfl, ?_, ?_, ?_, ?_⟩
    · simp only [selectCols, foldl_addNACol, missingOf]
      rw [List.filter_append, hfilm, List.append_nil]
    · intro c hc
      simp only [selectCols, foldl_addNACol]
      exact hmemord c hc
    · simp [selectCols, foldl_addNACol]
    · simp only [selectCols, foldl_addNACol, List.map_map, missingOf]
      rw [List.forall₂_map_right_iff, List.forall₂_same]
      intro r hr
      simp only [Function.comp]
      constructor
      · intro c hc
        rw [getCellRow_map _ _ _ (hmemord c hc),
          getCellRow_append_left c df.cols r _ _ (hrect r hr) hc]
      · intro c hc
        have hcn : c ∉ df.cols := by
          have := (List.mem_filter.mp hc).2
          exact of_decide_eq_true this
        rw [getCellRow_map _ _ _ (hmemmiss c hc),
          getCellRow_append_right c df.cols r _ _ (hrect r hr) hcn,
          getCellRow_blanks]

/-- Witness for C5 (amended) at a concrete 5-column drift store missing
only the week growth column. -/
theorem schema_migration_drift_spec_witness :
    ∃ df2 : DF,
      upgrade_daily_schema_if_needed
          (PStore.table ⟨["date", "keyword", "count", "status", "day_growth_pct"],
            [[Cell.i 0, Cell.s "k", Cell.i 5, Cell.s "ok", Cell.blank]]⟩) =
        Except.ok (PStore.table df2) ∧
      df2.cols =
        SCHEMA_V2.filter (fun c => decide (c ∈
            ["date", "keyword", "count", "status", "day_growth_pct"] ++
              missingOf ⟨["date", "keyword", "count", "status", "day_growth_pct"],
                [[Cell.i 0, Cell.s "k", Cell.i 5, Cell.s "ok", Cell.blank]]⟩)) ++
          (["date", "keyword", "count", "status", "day_growth_pct"].filter
            (fun c => decide (c ∉ SCHEMA_V2))) ∧
      (∀ c ∈ (["date", "keyword", "count", "status", "day_growth_pct"] : List String),
        c ∈ df2.cols) ∧
      df2.rows.length = 1 ∧
      List.Forall₂ (fun r r2 =>
          (∀ c ∈ (["date", "keyword", "count", "status", "day_growth_pct"] : List String),
            getCellRow df2.cols r2 c =
              getCellRow ["date", "keyword", "count", "status", "day_growth_pct"] r c) ∧
          (∀ c ∈ missingOf ⟨["date", "keyword", "count", "status", "day_growth_pct"],
              [[Cell.i 0, Cell.s "k", Cell.i 5, Cell.s "ok", Cell.blank]]⟩,
            getCellRow df2.cols r2 c = Cell.blank))
        [[Cell.i 0, Cell.s "k", Cell.i 5, Cell.s "ok", Cell.blank]] df2.rows :=
  schema_migration_drift_spec.2.2.2
    ⟨["date", "keyword", "count", "status", "day_growth_pct"],
      [[Cell.i 0, Cell.s "k", Cell.i 5, Cell.s "ok", Cell.blank]]⟩
    (by decide) (by decide) (by decide) (by decide)

/-- The column-filling fold of `safe_read_csv` appends some fresh columns,
pads every row with that many blanks, and afterwards covers every
requested column. -/
lemma usecolsFold_spec :
    ∀ (cs : List String) (b : DF),
      ∃ m : List String,
        cs.foldl (fun d c => if c ∈ d.cols then d else addNACol d c) b =
          ⟨b.cols ++ m, b.rows.map (fun r => r ++ blanks m.length)⟩ ∧
        ∀ x ∈ cs, x ∈ b.cols ++ m := by
  intro cs
  induction cs with
  | nil =>
      intro b
      refine ⟨[], ?_, by simp⟩
      cases b with
      | mk cols rows => simp [blanks]
  | cons c cs ih =>
      intro b
      rw [List.foldl_cons]
      by_cases hc : c ∈ b.cols
      · rw [if_pos hc]
        rcases ih b with ⟨m, hm, hmem⟩
        refine ⟨m, hm, ?_⟩
        intro x hx
        rcases List.mem_cons.mp hx with rfl | hx2
        · exact List.mem_append_left _ hc
        · exact hmem x hx2
      · rw [if_neg hc]
        rcases ih (addNACol b c) with ⟨m, hm, hmem⟩
        refine ⟨c :: m, ?_, ?_⟩
        · rw [hm]
          simp [addNACol, blanks, List.replicate_succ, List.map_map, Function.comp_def,
            List.append_assoc]
        · intro x hx
          rcases List.mem_cons.mp hx with rfl | hx2
          · exact List.mem_append_right _ (List.mem_cons_self _ _)
          · have := hmem x hx2
            simpa [addNACol, List.append_assoc] using this

/-- C6 counterexample: a zero-byte store is an empty store, yet the loader
propagates pandas' `EmptyDataError` instead of returning an empty result
(both the C and the python engines raise it, so the retry also fails). -/
theorem safe_read_empty_file_counterexample :
    safe_read_csv PStore.emptyFile none =
      Except.error "EmptyDataError: No columns to parse from file" := rfl

/-- C6 as amended: a missing store loads as an empty result for any column
request; a store holding a header but no data rows loads as a result with
no rows; and every requested column absent from the store comes back
filled with blank (missing) cells; only a zero-byte store errors. -/
theorem safe_read_missing_spec :
    (∀ uc : Option (List String), safe_read_csv PStore.absent uc = Except.ok ⟨[], []⟩) ∧
    (∀ (df : DF) (uc : Option (List String)), df.rows = [] →
      Except.map DF.rows (safe_read_csv (PStore.table df) uc) = Except.ok []) ∧
    (∀ (df : DF) (cs : List String) (c : String), c ∈ cs → c ∉ df.cols →
      ∃ d : DF, safe_read_csv (PStore.table df) (some cs) = Except.ok d ∧
        d.cols = cs ∧ ∀ r ∈ d.rows, getCellRow d.cols r c = Cell.blank) := by
  refine ⟨?_, ?_, ?_⟩
  · intro uc
    cases uc <;> rfl
  · intro df uc h
    have hrr : readRows df.cols df.rows = [] := by
      rw [h]
      rfl
    cases uc with
    | none => simp [safe_read_csv, hrr, Except.map]
    | some cs =>
        by_cases hcs : cs = []
        · simp [safe_read_csv, hcs, hrr, Except.map]
        · rcases usecolsFold_spec cs ⟨df.cols, ([] : List (List Cell))⟩ with ⟨m, hm, _⟩
          simp [safe_read_csv, hcs, hrr, hm, selectCols, Except.map]
  · intro df cs c hccs hcn
    have hcs : cs ≠ [] := by
      intro h
      rw [h] at hccs
      cases hccs
    rcases usecolsFold_spec cs ⟨df.cols, readRows df.cols df.rows⟩ with ⟨m, hm, _⟩
    have hmcols : (cs.foldl (fun d c => if c ∈ d.cols then d else addNACol d c)
        (⟨df.cols, readRows df.cols df.rows⟩ : DF)).cols = df.cols ++ m := by
      rw [hm]
    have hmrows : (cs.foldl (fun d c => if c ∈ d.cols then d else addNACol d c)
        (⟨df.cols, readRows df.cols df.rows⟩ : DF)).rows =
        (readRows df.cols df.rows).map (fun r => r ++ blanks m.length) := by
      rw [hm]
    have hread : safe_read_csv (PStore.table df) (some cs) =
        if cs = [] then Except.ok (⟨df.cols, readRows df.cols df.rows⟩ : DF)
        else Except.ok (selectCols
          (cs.foldl (fun d c => if c ∈ d.cols then d else addNACol d c)
            ⟨df.cols, readRows df.cols df.rows⟩) cs) := rfl
    refine ⟨selectCols
      (cs.foldl (fun d c => if c ∈ d.cols then d else addNACol d c)
        ⟨df.cols, readRows df.cols df.rows⟩) cs, ?_, rfl, ?_⟩
    · rw [hread, if_neg hcs]
    · intro r hr
      have hr2 : r ∈ ((cs.foldl (fun d c => if c ∈ d.cols then d else addNACol d c)
          (⟨df.cols, readRows df.cols df.rows⟩ : DF)).rows).map
            (fun r0 => cs.map (getCellRow
              (cs.foldl (fun d c => if c ∈ d.cols then d else addNACol d c)
                (⟨df.cols, readRows df.cols df.rows⟩ : DF)).cols r0)) := hr
      rw [hmrows, hmcols] at hr2
      rcases List.mem_map.mp hr2 with ⟨r0, hr0, rfl⟩
      rcases List.mem_map.mp hr0 with ⟨r1, hr1, rfl⟩
      show getCellRow cs
        (cs.map (getCellRow (df.cols ++ m) (r1 ++ blanks m.length))) c = Cell.blank
      rw [getCellRow_map _ _ _ hccs,
        getCellRow_append_right c df.cols r1 _ _ (readRows_all_length _ _ r1 hr1) hcn,
        getCellRow_blanks]

/-- Witness for C6 (amended): reading a one-column store while requesting
an absent `count` column succeeds and fills that column with blanks. -/
theorem safe_read_missing_spec_witness :
    ∃ d : DF, safe_read_csv (PStore.table ⟨["date"], [[Cell.i 3]]⟩)
        (some ["date", "count"]) = Except.ok d ∧
      d.cols = ["date", "count"] ∧
      ∀ r ∈ d.rows, getCellRow d.cols r "count" = Cell.blank :=
  safe_read_missing_spec.2.2 ⟨["date"], [[Cell.i 3]]⟩ ["date", "count"] "count"
    (by decide) (by decide)

/-- Serialization then parsing recovers the logical triple of a row. -/
lemma extractTriple_rrow (o : RRow) :
    extractTriple SCHEMA_V2 (rrowToCells o) = some (o.date, o.keyword, o.count) := rfl

/-- C7: appending an enriched batch to a fresh or current-layout history
store and reading the store back with the tolerant reader yields exactly
the appended rows after the surviving old ones, and each of them parses
back to the same `(date, keyword, count)` triple. -/
theorem append_read_round_trip (s : PStore) (batch : List RRow)
    (hs : s = PStore.absent ∨ ∃ df : DF, s = PStore.table df ∧ df.cols = SCHEMA_V2) :
    ∃ dfr : DF, ∃ k : Nat,
      safe_read_csv (appendStore s SCHEMA_V2 (batch.map rrowToCells)) none =
        Except.ok dfr ∧
      dfr.cols = SCHEMA_V2 ∧
      dfr.rows.length = k + batch.length ∧
      (dfr.rows.drop k).map (extractTriple dfr.cols) =
        batch.map (fun o => some (o.date, o.keyword, o.count)) := by
  have hnew : readRows SCHEMA_V2 (batch.map rrowToCells) = batch.map rrowToCells := by
    apply readRows_self
    intro r hr
    rcases List.mem_map.mp hr with ⟨o, _, rfl⟩
    rfl
  rcases hs with rfl | ⟨df, rfl, hcols⟩
  · refine ⟨⟨SCHEMA_V2, batch.map rrowToCells⟩, 0, ?_, rfl, ?_, ?_⟩
    · show Except.ok (⟨SCHEMA_V2, readRows SCHEMA_V2 (batch.map rrowToCells)⟩ : DF) = _
      rw [hnew]
    · simp
    · simp [extractTriple_rrow]
  · obtain ⟨cols, rows⟩ := df
    have hc2 : cols = SCHEMA_V2 := hcols
    subst hc2
    refine ⟨⟨SCHEMA_V2, readRows SCHEMA_V2 rows ++ batch.map rrowToCells⟩,
      (readRows SCHEMA_V2 rows).length, ?_, rfl, ?_, ?_⟩
    · show Except.ok (⟨SCHEMA_V2, readRows SCHEMA_V2 (rows ++ batch.map rrowToCells)⟩ : DF) = _
      rw [readRows_append, hnew]
    · simp
    · show ((readRows SCHEMA_V2 rows ++ batch.map rrowToCells).drop
          (readRows SCHEMA_V2 rows).length).map (extractTriple SCHEMA_V2) = _
      rw [List.drop_left]
      simp [extractTriple_rrow]

/-- Witness for C7: a fresh store and a one-row batch round-trip. -/
theorem append_read_round_trip_witness :
    ∃ dfr : DF, ∃ k : Nat,
      safe_read_csv (appendStore PStore.absent SCHEMA_V2
          ([⟨1, "k", 5, "ok", none, none⟩].map rrowToCells)) none =
        Except.ok dfr ∧
      dfr.cols = SCHEMA_V2 ∧
      dfr.rows.length = k + 1 ∧
      (dfr.rows.drop k).map (extractTriple dfr.cols) = [some (1, "k", 5)] :=
  append_read_round_trip PStore.absent [⟨1, "k", 5, "ok", none, none⟩] (Or.inl rfl)

end Crawler
